import Mathlib

/-!
Verification of the `hohhot_data.py` bulletin scraper.

The program scrapes monthly real-estate bulletins, extracts figures from
Chinese prose with regular expressions, accumulates per-month records and
renders charts.  This file embeds the data model and the extraction,
caching, orchestration and charting logic as executable Lean definitions
and proves properties about them.

Texts are lists of characters; the regular-expression patterns of the
source are embedded as deterministic matchers (the patterns are
backtracking-free on their alphabet: every repetition is followed by a
character that cannot extend it, so maximal munch coincides with the
regex semantics).  Numeric values are modelled as rationals.
-/

set_option maxRecDepth 100000

abbrev Text := List Char

def strT (s : String) : Text := s.data

/-! ### Numeric parsing (Python `float` applied to a captured `\d+(\.\d+)?` token) -/

def digitsVal (ds : Text) : Nat := ds.foldl (fun a c => a * 10 + (c.toNat - 48)) 0

def intPartT (t : Text) : Text := t.takeWhile Char.isDigit

def fracPartT (t : Text) : Text :=
  match t.dropWhile Char.isDigit with
  | '.' :: fr => fr.takeWhile Char.isDigit
  | _ => []

def parseNum (t : Text) : ℚ :=
  (digitsVal (intPartT t) : ℚ) + (digitsVal (fracPartT t) : ℚ) / (10 : ℚ) ^ (fracPartT t).length

/-! ### Sign rule

`get_sign_value(match, name)` negates the captured magnitude when the
associated trend token contains a character of the string `'下降低负'`.
-/

def get_sign_value (trend fig : Text) : ℚ :=
  if trend.any (fun c => (strT "下降低负").contains c) then -(parseNum fig) else parseNum fig

/-- The sign rule as the specification words it: negate exactly when the
trend token contains a character of the decrease vocabulary listed as
the set of 降, 负, 低 and 下. -/
def spec_signed_field (trend : Text) (mag : ℚ) : ℚ :=
  if trend.any (fun c => c = '降' ∨ c = '负' ∨ c = '低' ∨ c = '下') then -mag else mag

/-! ### Primitive matchers, operating at a character index of the content -/

def sliceT (t : Text) (i n : Nat) : Text := (t.drop i).take n

/-- Match a literal at index `i`, returning the index after it. -/
def litFrom (t : Text) : Text → Nat → Option Nat
  | [], i => some i
  | c :: cs, i =>
    match t.get? i with
    | some x => if x = c then litFrom t cs (i + 1) else none
    | none => none

/-- Length of the maximal digit run starting at index `i` (greedy `\d+`). -/
def digitRunLen (t : Text) (i : Nat) : Nat :=
  ((t.drop i).takeWhile Char.isDigit).length

/-- Token `\d+` as used for the unit count: one or more digits. -/
def digitsFrom (t : Text) (i : Nat) : Option (Text × Nat) :=
  match digitRunLen t i with
  | 0 => none
  | n => some (sliceT t i n, i + n)

/-- Token `\d+\.\d+|\d+`: a decimal fraction if a dot with digits follows the
integer part, otherwise just the digits. -/
def numFrom (t : Text) (i : Nat) : Option (Text × Nat) :=
  match digitRunLen t i with
  | 0 => none
  | n =>
    if t.get? (i + n) = some '.' then
      match digitRunLen t (i + n + 1) with
      | 0 => some (sliceT t i n, i + n)
      | m => some (sliceT t i (n + 1 + m), i + n + 1 + m)
    else some (sliceT t i n, i + n)

/-- The two-character trend token `[增下上][长降涨]`. -/
def trendFrom (t : Text) (i : Nat) : Option (Text × Nat) :=
  match t.get? i, t.get? (i + 1) with
  | some a, some b =>
    if (a = '增' ∨ a = '下' ∨ a = '上') ∧ (b = '长' ∨ b = '降' ∨ b = '涨') then
      some ([a, b], i + 2)
    else none
  | _, _ => none

/-- The separator class `[；|。]` (one character; `|` is literal inside a class). -/
def sepFrom (t : Text) (i : Nat) : Option (Text × Nat) :=
  match t.get? i with
  | some c => if c = '；' ∨ c = '|' ∨ c = '。' then some ([c], i + 1) else none
  | none => none

/-- The optional percent sign `%?`; never fails. -/
def pctFrom (t : Text) (i : Nat) : Option (Text × Nat) :=
  if t.get? i = some '%' then some (['%'], i + 1) else some ([], i)

/-- Search wrapper: `re.search` semantics: try every start index from the left, the match at
the leftmost succeeding index wins. -/
def searchAux (f : Nat → Option α) : Nat → Nat → Option α
  | i, 0 => f i
  | i, fuel + 1 =>
    match f i with
    | some m => some m
    | none => searchAux f (i + 1) fuel

def searchF (f : Nat → Option α) (t : Text) : Option α :=
  searchAux f 0 t.length

/-! ### The record model

`BaseInfo` is value + year-over-year % + month-over-month %; `HouseInfo`
groups the four transaction `BaseInfo`s of one market segment; `TradeData`
is the payload of one month's `TradeInfo`.
-/

structure BaseInfo where
  value : ℚ
  yoy : ℚ
  mom : ℚ
deriving DecidableEq

structure HouseInfo where
  commercial_area : BaseInfo
  commercial_unit : BaseInfo
  residential_area : BaseInfo
  residential_unit : BaseInfo
deriving DecidableEq

structure TradeData where
  commercial_list_info : BaseInfo
  residential_list_info : BaseInfo
  new_house : HouseInfo
  old_house : HouseInfo
deriving DecidableEq

/-- One month's record: `TradeInfo.__init__` keeps the pattern captures as
strings (`match_res.group` returns strings, never converted with `int`)
and stores `href.strip().removeprefix('./')`. -/
structure TradeInfo where
  year : Text
  month : Text
  href : Text
  data : TradeData
deriving DecidableEq

/-! ### Capture-group structures of the three regex shapes

Field names follow the named groups of the source patterns; fields are the
captured substrings.  In `build_deal_pattern` the 同比 clause of the unit
count stores its figure in group `unit_mom` while its trend goes to
`unit_yoy_trend`, and symmetrically for the 环比 clause — exactly as the
source writes it.
-/

structure CListMatch where
  lead : Text
  area : Text
  area_mom_trend : Text
  area_mom : Text
  area_yoy_trend : Text
  area_yoy : Text
deriving DecidableEq

structure RListMatch where
  area : Text
  area_mom_trend : Text
  area_mom : Text
  pct1 : Text
  area_yoy_trend : Text
  area_yoy : Text
deriving DecidableEq

structure DealMatch where
  area : Text
  area_yoy_trend : Text
  area_yoy : Text
  area_mom_trend : Text
  area_mom : Text
  sep : Text
  unit : Text
  unit_yoy_trend : Text
  unit_mom : Text
  unit_mom_trend : Text
  unit_yoy : Text
deriving DecidableEq

/-- Pattern `commercial_list_pattern`: `\d+月，我市商品房上市面积(?P<area>num)万平方米，
同比(?P<area_mom_trend>trend)(?P<area_mom>num)%，环比(?P<area_yoy_trend>trend)(?P<area_yoy>num)%`. -/
def clMatchAt (t : Text) (i : Nat) : Option (CListMatch × Nat) :=
  match digitsFrom t i with
  | none => none
  | some (ld, i1) =>
    match litFrom t (strT "月，我市商品房上市面积") i1 with
    | none => none
    | some i2 =>
      match numFrom t i2 with
      | none => none
      | some (a, i3) =>
        match litFrom t (strT "万平方米，同比") i3 with
        | none => none
        | some i4 =>
          match trendFrom t i4 with
          | none => none
          | some (t1, i5) =>
            match numFrom t i5 with
            | none => none
            | some (f1, i6) =>
              match litFrom t (strT "%，环比") i6 with
              | none => none
              | some i7 =>
                match trendFrom t i7 with
                | none => none
                | some (t2, i8) =>
                  match numFrom t i8 with
                  | none => none
                  | some (f2, i9) =>
                    match litFrom t (strT "%") i9 with
                    | none => none
                    | some i10 => some (⟨ld, a, t1, f1, t2, f2⟩, i10)

/-- Pattern `residential_list_pattern`: `商品住房上市面积(?P<area>num)万平方米，
同比(?P<area_mom_trend>trend)(?P<area_mom>num)%?，环比(?P<area_yoy_trend>trend)(?P<area_yoy>num)%`. -/
def rlMatchAt (t : Text) (i : Nat) : Option (RListMatch × Nat) :=
  match litFrom t (strT "商品住房上市面积") i with
  | none => none
  | some i1 =>
    match numFrom t i1 with
    | none => none
    | some (a, i2) =>
      match litFrom t (strT "万平方米，同比") i2 with
      | none => none
      | some i3 =>
        match trendFrom t i3 with
        | none => none
        | some (t1, i4) =>
          match numFrom t i4 with
          | none => none
          | some (f1, i5) =>
            match pctFrom t i5 with
            | none => none
            | some (p1, i6) =>
              match litFrom t (strT "，环比") i6 with
              | none => none
              | some i7 =>
                match trendFrom t i7 with
                | none => none
                | some (t2, i8) =>
                  match numFrom t i8 with
                  | none => none
                  | some (f2, i9) =>
                    match litFrom t (strT "%") i9 with
                    | none => none
                    | some i10 => some (⟨a, t1, f1, p1, t2, f2⟩, i10)

/-- Pattern builder `build_deal_pattern`: the transaction-sentence pattern.  Note the
source's group naming in the unit half: 同比 captures
`(?P<unit_yoy_trend>trend)(?P<unit_mom>num)` and 环比 captures
`(?P<unit_mom_trend>trend)(?P<unit_yoy>num)`. -/
def dealMatchAt (lead : Text) (t : Text) (i : Nat) : Option (DealMatch × Nat) :=
  match litFrom t lead i with
  | none => none
  | some i1 =>
    match numFrom t i1 with
    | none => none
    | some (a, i2) =>
      match litFrom t (strT "万平方米，同比") i2 with
      | none => none
      | some i3 =>
        match trendFrom t i3 with
        | none => none
        | some (ayt, i4) =>
          match numFrom t i4 with
          | none => none
          | some (ay, i5) =>
            match litFrom t (strT "%，环比") i5 with
            | none => none
            | some i6 =>
              match trendFrom t i6 with
              | none => none
              | some (amt, i7) =>
                match numFrom t i7 with
                | none => none
                | some (am, i8) =>
                  match litFrom t (strT "%") i8 with
                  | none => none
                  | some i9 =>
                    match sepFrom t i9 with
                    | none => none
                    | some (sp, i10) =>
                      match litFrom t (strT "成交套数") i10 with
                      | none => none
                      | some i11 =>
                        match digitsFrom t i11 with
                        | none => none
                        | some (u, i12) =>
                          match litFrom t (strT "套，同比") i12 with
                          | none => none
                          | some i13 =>
                            match trendFrom t i13 with
                            | none => none
                            | some (uyt, i14) =>
                              match numFrom t i14 with
                              | none => none
                              | some (um, i15) =>
                                match litFrom t (strT "%，环比") i15 with
                                | none => none
                                | some i16 =>
                                  match trendFrom t i16 with
                                  | none => none
                                  | some (umt, i17) =>
                                    match numFrom t i17 with
                                    | none => none
                                    | some (uy, i18) =>
                                      match litFrom t (strT "%。") i18 with
                                      | none => none
                                      | some i19 =>
                                        some (⟨a, ayt, ay, amt, am, sp, u, uyt, um, umt, uy⟩, i19)

/-! ### The compiled patterns and their `re.search` wrappers -/

def clSearch (t : Text) : Option (CListMatch × Nat) := searchF (clMatchAt t) t

def rlSearch (t : Text) : Option (RListMatch × Nat) := searchF (rlMatchAt t) t

/-- Pattern `new_commercial_deal_pattern = build_deal_pattern(r'我市新建商品房成交面积')` -/
def ncSearch (t : Text) : Option (DealMatch × Nat) :=
  searchF (dealMatchAt (strT "我市新建商品房成交面积") t) t

/-- Pattern `new_residential_deal_pattern = build_deal_pattern(r'其中：新建商品住宅成交面积')`
(defined in the source, but never applied by `fill_month_trade_info`). -/
def nrSearch (t : Text) : Option (DealMatch × Nat) :=
  searchF (dealMatchAt (strT "其中：新建商品住宅成交面积") t) t

/-- Pattern `old_commercial_deal_pattern = build_deal_pattern(r'我市二手房成交面积')` -/
def ocSearch (t : Text) : Option (DealMatch × Nat) :=
  searchF (dealMatchAt (strT "我市二手房成交面积") t) t

/-- Pattern `old_residential_deal_pattern = build_deal_pattern(r'其中：二手住宅成交面积')`
(defined in the source, but never applied by `fill_month_trade_info`). -/
def orSearch (t : Text) : Option (DealMatch × Nat) :=
  searchF (dealMatchAt (strT "其中：二手住宅成交面积") t) t

/-! ### `BaseInfo` construction from a match (`BaseInfo.__init__` with a match object) -/

/-- Constructor call `BaseInfo(match, 'area')` for a listed-area match: `value = float(group('area'))`,
`yoy = get_sign_value(match, 'area_yoy')`, `mom = get_sign_value(match, 'area_mom')`. -/
def clBase (m : CListMatch) : BaseInfo :=
  ⟨parseNum m.area, get_sign_value m.area_yoy_trend m.area_yoy,
    get_sign_value m.area_mom_trend m.area_mom⟩

def rlBase (m : RListMatch) : BaseInfo :=
  ⟨parseNum m.area, get_sign_value m.area_yoy_trend m.area_yoy,
    get_sign_value m.area_mom_trend m.area_mom⟩

/-- Constructor call `BaseInfo(match, 'area')` for a transaction match. -/
def dealAreaBase (m : DealMatch) : BaseInfo :=
  ⟨parseNum m.area, get_sign_value m.area_yoy_trend m.area_yoy,
    get_sign_value m.area_mom_trend m.area_mom⟩

/-- Constructor call `BaseInfo(match, 'unit')` for a transaction match: the sign of `yoy` comes
from group `unit_yoy_trend` and its magnitude from group `unit_yoy`. -/
def dealUnitBase (m : DealMatch) : BaseInfo :=
  ⟨parseNum m.unit, get_sign_value m.unit_yoy_trend m.unit_yoy,
    get_sign_value m.unit_mom_trend m.unit_mom⟩

/-- Constructor call `HouseInfo(commercial_match, residential_match)`; `BaseInfo(None, ...)`
raises, which an `Option` result models. -/
def mkHouseInfo : Option DealMatch → Option DealMatch → Option HouseInfo
  | some cm, some rm =>
    some ⟨dealAreaBase cm, dealUnitBase cm, dealAreaBase rm, dealUnitBase rm⟩
  | _, _ => none

/-- Parser driver `fill_month_trade_info` after the content string is extracted: the four
searches actually performed.  Lines 135 and 138 of the source search the
*commercial* patterns again for the residential fields; the residential
patterns are never applied.  Any failed construction raises, modelled by
`none`. -/
def fill_month_trade_info (content : Text) : Option TradeData :=
  match clSearch content with
  | none => none
  | some cl =>
    match rlSearch content with
    | none => none
    | some rl =>
      match mkHouseInfo ((ncSearch content).map Prod.fst) ((ncSearch content).map Prod.fst) with
      | none => none
      | some nh =>
        match mkHouseInfo ((ocSearch content).map Prod.fst) ((ocSearch content).map Prod.fst) with
        | none => none
        | some oh => some ⟨clBase cl.1, rlBase rl.1, nh, oh⟩

/-! ### Concrete contents used by the witnesses and counterexamples -/

/-- The example content string of the specification (the new-commercial
transaction sentence alone). -/
def c1content : Text := strT "我市新建商品房成交面积12.5万平方米，同比增长3.2%，环比下降1.1%；成交套数150套，同比增长2.0%，环比下降0.5%。"

/-- A content string containing the commercial listed-area, residential
listed-area, new-commercial and resale-commercial sentences, and neither
the new-residential nor the resale-residential 其中 sentence. -/
def c_full : Text := strT "3月，我市商品房上市面积10.5万平方米，同比增长1.0%，环比下降2.0%。商品住房上市面积8.6万平方米，同比下降1.5%，环比增长0.5%。我市新建商品房成交面积12.5万平方米，同比增长3.2%，环比下降1.1%；成交套数150套，同比增长2.0%，环比下降0.5%。我市二手房成交面积6.8万平方米，同比增长1.0%，环比增长2.0%；成交套数80套，同比下降3.0%，环比增长4.0%。"

/-- The capture groups of the new-commercial transaction pattern on the
example sentence (also its match inside `c_full`). -/
def Mnc : DealMatch := ⟨strT "12.5", strT "增长", strT "3.2", strT "下降", strT "1.1", strT "；", strT "150", strT "增长", strT "2.0", strT "下降", strT "0.5"⟩

def Mcl : CListMatch := ⟨strT "3", strT "10.5", strT "增长", strT "1.0", strT "下降", strT "2.0"⟩

def Mrl : RListMatch := ⟨strT "8.6", strT "下降", strT "1.5", strT "%", strT "增长", strT "0.5"⟩

def Moc : DealMatch := ⟨strT "6.8", strT "增长", strT "1.0", strT "增长", strT "2.0", strT "；", strT "80", strT "下降", strT "3.0", strT "增长", strT "4.0"⟩

/-- The record the parser builds from `c_full`. -/
def Rfull : TradeData :=
  ⟨clBase Mcl, rlBase Mrl,
    ⟨dealAreaBase Mnc, dealUnitBase Mnc, dealAreaBase Mnc, dealUnitBase Mnc⟩,
    ⟨dealAreaBase Moc, dealUnitBase Moc, dealAreaBase Moc, dealUnitBase Moc⟩⟩

/-! ### Index parsing: the bulletin title pattern and anchor processing

`title_pattern = (\d{4})年(\d{1,2})月[我|市]*房地产[市|场]*[运行]*情况`,
applied with `re.match` (anchored at the start of the title) to extract
`year = group(1)` and `month = group(2)` — both remain strings.
-/

def litP : Text → Text → Option Text
  | [], s => some s
  | _, [] => none
  | c :: cs, x :: xs => if c = x then litP cs xs else none

/-- Greedy `(\d{1,2})月`: two digits if the third character is 月,
else one digit directly followed by 月. -/
def monthP (s : Text) : Option (Text × Text) :=
  match s with
  | c1 :: c2 :: rest =>
    if c1.isDigit && c2.isDigit then
      match rest with
      | '月' :: r2 => some ([c1, c2], r2)
      | _ => none
    else if c1.isDigit && c2 = '月' then some ([c1], rest)
    else none
  | _ => none

def title_match (t : Text) : Option (Text × Text) :=
  match t with
  | y1 :: y2 :: y3 :: y4 :: '年' :: r =>
    if y1.isDigit && y2.isDigit && y3.isDigit && y4.isDigit then
      match monthP r with
      | none => none
      | some (mo, r2) =>
        match litP (strT "房地产") (r2.dropWhile fun c => c == '我' || c == '|' || c == '市') with
        | none => none
        | some r4 =>
          match litP (strT "情况")
              (((r4.dropWhile fun c => c == '市' || c == '|' || c == '场').dropWhile
                fun c => c == '运' || c == '行')) with
          | none => none
          | some _ => some ([y1, y2, y3, y4], mo)
    else none
  | _ => none

/-- Python `str.strip()` on the href. -/
def stripT (t : Text) : Text :=
  ((t.dropWhile Char.isWhitespace).reverse.dropWhile Char.isWhitespace).reverse

/-- Python `str.removeprefix('./')`: drops one leading `./` occurrence. -/
def dropDotSlash : Text → Text
  | '.' :: '/' :: r => r
  | t => t

/-! ### Orchestrator

`process_index_page` walks the matched anchor tags of one index page; for
each it extracts `(year, month)` from the title, builds a `TradeInfo`
(with the stripped href), tries to fill it from the fetched bulletin
content and appends it on success; a parse failure only drops the month.
A title on which `re.match` fails would crash the page (`match_res` is
`None`), modelled by `none`.  `fetch_business_data` concatenates the
results of the fixed page list.  The `oracle` maps a stored href to the
bulletin's extracted content string.
-/

structure AnchorTag where
  title : Text
  href : Text
deriving DecidableEq

def process_index_page (anchors : List AnchorTag) (oracle : Text → Text) :
    Option (List TradeInfo) :=
  match anchors with
  | [] => some []
  | a :: rest =>
    match title_match a.title with
    | none => none
    | some (y, mo) =>
      match process_index_page rest oracle with
      | none => none
      | some out =>
        match fill_month_trade_info (oracle (dropDotSlash (stripT a.href))) with
        | some d => some (⟨y, mo, dropDotSlash (stripT a.href), d⟩ :: out)
        | none => some out

def fetch_business_data (pages : List (List AnchorTag)) (oracle : Text → Text) :
    Option (List TradeInfo) :=
  match pages with
  | [] => some []
  | p :: ps =>
    match process_index_page p oracle with
    | none => none
    | some out1 =>
      match fetch_business_data ps oracle with
      | none => none
      | some out2 => some (out1 ++ out2)

/-! ### Page cache (`fetch_html_content` / `fetch_content`)

State passed explicitly: `dump` is the cache file's current content
(`none` when the file does not exist), `net` is the network oracle.  The
result triple is (returned value, HTTP GET requests issued, file write
performed).  On a hit the stored bytes are returned; on a miss the
response *text* is returned while its UTF-8 encoding is written.
-/

inductive HtmlContent where
  | bytes (bs : List Nat)
  | text (s : Text)
deriving DecidableEq

def baseUrl : Text := strT "http://zfcxjsj.huhhot.gov.cn/tjsj/"

def utf8Char (c : Char) : List Nat :=
  let n := c.toNat
  if n < 128 then [n]
  else if n < 2048 then [192 + n / 64, 128 + n % 64]
  else if n < 65536 then [224 + n / 4096, 128 + n / 64 % 64, 128 + n % 64]
  else [240 + n / 262144, 128 + n / 4096 % 64, 128 + n / 64 % 64, 128 + n % 64]

def utf8Encode (s : Text) : List Nat := (s.map utf8Char).flatten

def cacheHit : Option (List Nat) → Bool
  | some bs => !bs.isEmpty
  | none => false

def fetch_html_content (dump : Option (List Nat)) (net : Text → Text) (suffix : Text) :
    HtmlContent × List Text × Option (List Nat) :=
  if cacheHit dump then
    (.bytes (dump.getD []), [], none)
  else
    (.text (net (baseUrl ++ suffix)), [baseUrl ++ suffix],
      some (utf8Encode (net (baseUrl ++ suffix))))

/-! ### Chart renderer

The entry point sorts by the pair of year and month and then builds labels:
the x labels are built with an f-string of year then month.  Records are
identified here by their `(year, month)` key, taken as integers as the
specification's data model declares them; Python's f-string on an integer
prints its decimal digits with no zero padding, i.e. `Nat.repr`.
-/

def chartKeyLE (a b : Nat × Nat) : Bool :=
  Nat.blt a.1 b.1 || (a.1 == b.1 && Nat.ble a.2 b.2)

def insertRecord (x : Nat × Nat) : List (Nat × Nat) → List (Nat × Nat)
  | [] => [x]
  | y :: ys => if chartKeyLE y x then y :: insertRecord x ys else x :: y :: ys

def sortRecords : List (Nat × Nat) → List (Nat × Nat)
  | [] => []
  | x :: xs => insertRecord x (sortRecords xs)

def chart_x (records : List (Nat × Nat)) : List String :=
  (sortRecords records).map fun p => Nat.repr p.1 ++ Nat.repr p.2

/-! ### A concrete index-page run -/

def T1title : Text := strT "2023年3月我市房地产市场运行情况"

def A1 : AnchorTag := ⟨T1title, strT "./b1.html"⟩

def Tinfo1 : TradeInfo := ⟨strT "2023", strT "3", strT "b1.html", Rfull⟩

/-- The per-anchor key function: which `(year, month)` pair one matched
anchor contributes to the result list (none when its bulletin fails to
parse). -/
def anchorKey (oracle : Text → Text) (a : AnchorTag) : Option (Text × Text) :=
  (title_match a.title).bind fun ym =>
    if (fill_month_trade_info (oracle (dropDotSlash (stripT a.href)))).isSome then
      some ym
    else none

theorem parseNum_nonneg (t : Text) : 0 ≤ parseNum t := by
  unfold parseNum
  positivity

theorem parseNum_eval (t : Text) (a b k : Nat) (h1 : digitsVal (intPartT t) = a)
    (h2 : digitsVal (fracPartT t) = b) (h3 : (fracPartT t).length = k) :
    parseNum t = a + b / 10 ^ k := by
  simp [parseNum, h1, h2, h3]

/-! ### Soundness of the primitive matchers: each consumes exactly its capture -/

theorem sliceT_append (t : Text) (i n : Nat) :
    sliceT t i n ++ t.drop (i + n) = t.drop i := by
  have h : t.drop (i + n) = (t.drop i).drop n := by
    rw [List.drop_drop, Nat.add_comm]
  rw [sliceT, h, List.take_append_drop]

theorem get?_drop_cons (t : Text) (i : Nat) (c : Char) (h : t.get? i = some c) :
    t.drop i = c :: t.drop (i + 1) := by
  have hlt : i < t.length := List.get?_eq_some.mp h |>.1
  rw [List.drop_eq_getElem_cons hlt]
  have := List.get?_eq_getElem? t i
  rw [this, List.getElem?_eq_getElem hlt] at h
  simp only [Option.some.injEq] at h
  rw [h]

theorem litFrom_sound (t : Text) :
    ∀ (l : Text) (i j : Nat), litFrom t l i = some j → t.drop i = l ++ t.drop j := by
  intro l
  induction l with
  | nil =>
    intro i j h
    simp only [litFrom, Option.some.injEq] at h
    rw [h, List.nil_append]
  | cons c cs ih =>
    intro i j h
    unfold litFrom at h
    split at h
    next x hg =>
      split at h
      next hx =>
        have := ih (i + 1) j h
        rw [get?_drop_cons t i c (hx ▸ hg), this, List.cons_append]
      next => exact absurd h (by simp)
    next => exact absurd h (by simp)

theorem digitsFrom_sound (t : Text) (i : Nat) (c : Text) (j : Nat)
    (h : digitsFrom t i = some (c, j)) : t.drop i = c ++ t.drop j := by
  unfold digitsFrom at h
  split at h
  · exact absurd h (by simp)
  · simp only [Option.some.injEq, Prod.mk.injEq] at h
    rw [← h.1, ← h.2]
    exact (sliceT_append t i _).symm

theorem numFrom_sound (t : Text) (i : Nat) (c : Text) (j : Nat)
    (h : numFrom t i = some (c, j)) : t.drop i = c ++ t.drop j := by
  unfold numFrom at h
  split at h
  · exact absurd h (by simp)
  next n _ =>
    split at h
    · split at h
      · simp only [Option.some.injEq, Prod.mk.injEq] at h
        rw [← h.1, ← h.2]; exact (sliceT_append t i _).symm
      next m _ =>
        simp only [Option.some.injEq, Prod.mk.injEq] at h
        rw [← h.1, ← h.2]
        have h3 := sliceT_append t i (digitRunLen t i + 1 + digitRunLen t (i + digitRunLen t i + 1))
        rw [show i + (digitRunLen t i + 1 + digitRunLen t (i + digitRunLen t i + 1)) =
            i + digitRunLen t i + 1 + digitRunLen t (i + digitRunLen t i + 1) by omega] at h3
        exact h3.symm
    · simp only [Option.some.injEq, Prod.mk.injEq] at h
      rw [← h.1, ← h.2]; exact (sliceT_append t i _).symm

theorem trendFrom_sound (t : Text) (i : Nat) (c : Text) (j : Nat)
    (h : trendFrom t i = some (c, j)) : t.drop i = c ++ t.drop j := by
  unfold trendFrom at h
  split at h
  next a b ha hb =>
    split at h
    · simp only [Option.some.injEq, Prod.mk.injEq] at h
      rw [← h.1, ← h.2]
      rw [get?_drop_cons t i a ha, get?_drop_cons t (i + 1) b hb]
      rfl
    · exact absurd h (by simp)
  next => exact absurd h (by simp)

theorem sepFrom_sound (t : Text) (i : Nat) (c : Text) (j : Nat)
    (h : sepFrom t i = some (c, j)) : t.drop i = c ++ t.drop j := by
  unfold sepFrom at h
  split at h
  next a ha =>
    split at h
    · simp only [Option.some.injEq, Prod.mk.injEq] at h
      rw [← h.1, ← h.2]
      rw [get?_drop_cons t i a ha]
      rfl
    · exact absurd h (by simp)
  next => exact absurd h (by simp)

theorem pctFrom_sound (t : Text) (i : Nat) (c : Text) (j : Nat)
    (h : pctFrom t i = some (c, j)) : t.drop i = c ++ t.drop j := by
  unfold pctFrom at h
  split at h
  next hp =>
    simp only [Option.some.injEq, Prod.mk.injEq] at h
    rw [← h.1, ← h.2]
    rw [get?_drop_cons t i '%' hp]
    rfl
  next =>
    simp only [Option.some.injEq, Prod.mk.injEq] at h
    rw [← h.1, ← h.2]
    rfl

/-! ### Generic search lemmas -/

theorem searchAux_of_first (f : Nat → Option α) :
    ∀ (fuel i k : Nat) (v : α), i ≤ k → k ≤ i + fuel →
      (∀ j, i ≤ j → j < k → f j = none) → f k = some v →
      searchAux f i fuel = some v := by
  intro fuel
  induction fuel with
  | zero =>
    intro i k v hik hk _ hfk
    have : i = k := Nat.le_antisymm hik (by omega)
    simp [searchAux, this, hfk]
  | succ n ih =>
    intro i k v hik hk hnone hfk
    by_cases hik' : i = k
    · simp [searchAux, hik' ▸ hfk]
    · have hlt : i < k := Nat.lt_of_le_of_ne hik hik'
      have hfi : f i = none := hnone i (Nat.le_refl i) hlt
      simp only [searchAux, hfi]
      exact ih (i + 1) k v hlt (by omega) (fun j hj hjk => hnone j (by omega) hjk) hfk

theorem searchAux_none (f : Nat → Option α) :
    ∀ (fuel i : Nat), (∀ j, i ≤ j → j ≤ i + fuel → f j = none) →
      searchAux f i fuel = none := by
  intro fuel
  induction fuel with
  | zero =>
    intro i h
    simpa [searchAux] using h i (Nat.le_refl i) (by omega)
  | succ n ih =>
    intro i h
    have hfi : f i = none := h i (Nat.le_refl i) (by omega)
    simp only [searchAux, hfi]
    exact ih (i + 1) (fun j hj hjk => h j (by omega) (by omega))

theorem searchAux_some_exists (f : Nat → Option α) :
    ∀ (fuel i : Nat) (v : α), searchAux f i fuel = some v → ∃ k, f k = some v := by
  intro fuel
  induction fuel with
  | zero => intro i v h; exact ⟨i, h⟩
  | succ n ih =>
    intro i v h
    simp only [searchAux] at h
    cases hf : f i with
    | some m => rw [hf] at h; exact ⟨i, hf.trans h⟩
    | none => rw [hf] at h; exact ih (i + 1) v h

theorem searchF_of_first (f : Nat → Option α) (t : Text) (k : Nat) (v : α)
    (hk : k ≤ t.length) (hnone : ∀ j, j < k → f j = none) (hfk : f k = some v) :
    searchF f t = some v :=
  searchAux_of_first f t.length 0 k v (Nat.zero_le k) (by omega)
    (fun j _ hjk => hnone j hjk) hfk

theorem searchF_none (f : Nat → Option α) (t : Text)
    (h : ∀ j, j ≤ t.length → f j = none) : searchF f t = none :=
  searchAux_none f t.length 0 (fun j _ hj => h j (by omega))

theorem searchF_some_exists (f : Nat → Option α) (t : Text) (v : α)
    (h : searchF f t = some v) : ∃ k, f k = some v :=
  searchAux_some_exists f t.length 0 v h

/-! ### Evaluated matches (stepwise, keeping kernel reductions small) -/

theorem ncMatch_c1 : dealMatchAt (strT "我市新建商品房成交面积") c1content 0 = some (Mnc, 65) := by
  have e0 : litFrom c1content (strT "我市新建商品房成交面积") 0 = some 11 := by decide
  have e1 : numFrom c1content 11 = some (strT "12.5", 15) := by decide
  have e2 : litFrom c1content (strT "万平方米，同比") 15 = some 22 := by decide
  have e3 : trendFrom c1content 22 = some (strT "增长", 24) := by decide
  have e4 : numFrom c1content 24 = some (strT "3.2", 27) := by decide
  have e5 : litFrom c1content (strT "%，环比") 27 = some 31 := by decide
  have e6 : trendFrom c1content 31 = some (strT "下降", 33) := by decide
  have e7 : numFrom c1content 33 = some (strT "1.1", 36) := by decide
  have e8 : litFrom c1content (strT "%") 36 = some 37 := by decide
  have e9 : sepFrom c1content 37 = some (strT "；", 38) := by decide
  have e10 : litFrom c1content (strT "成交套数") 38 = some 42 := by decide
  have e11 : digitsFrom c1content 42 = some (strT "150", 45) := by decide
  have e12 : litFrom c1content (strT "套，同比") 45 = some 49 := by decide
  have e13 : trendFrom c1content 49 = some (strT "增长", 51) := by decide
  have e14 : numFrom c1content 51 = some (strT "2.0", 54) := by decide
  have e15 : litFrom c1content (strT "%，环比") 54 = some 58 := by decide
  have e16 : trendFrom c1content 58 = some (strT "下降", 60) := by decide
  have e17 : numFrom c1content 60 = some (strT "0.5", 63) := by decide
  have e18 : litFrom c1content (strT "%。") 63 = some 65 := by decide
  simp only [dealMatchAt, e0, e1, e2, e3, e4, e5, e6, e7, e8, e9, e10, e11, e12, e13, e14, e15, e16, e17, e18, Mnc]

theorem clMatch_cfull : clMatchAt c_full 0 = some (Mcl, 38) := by
  have e0 : digitsFrom c_full 0 = some (strT "3", 1) := by decide
  have e1 : litFrom c_full (strT "月，我市商品房上市面积") 1 = some 12 := by decide
  have e2 : numFrom c_full 12 = some (strT "10.5", 16) := by decide
  have e3 : litFrom c_full (strT "万平方米，同比") 16 = some 23 := by decide
  have e4 : trendFrom c_full 23 = some (strT "增长", 25) := by decide
  have e5 : numFrom c_full 25 = some (strT "1.0", 28) := by decide
  have e6 : litFrom c_full (strT "%，环比") 28 = some 32 := by decide
  have e7 : trendFrom c_full 32 = some (strT "下降", 34) := by decide
  have e8 : numFrom c_full 34 = some (strT "2.0", 37) := by decide
  have e9 : litFrom c_full (strT "%") 37 = some 38 := by decide
  simp only [clMatchAt, e0, e1, e2, e3, e4, e5, e6, e7, e8, e9, Mcl]

theorem rlMatch_cfull : rlMatchAt c_full 39 = some (Mrl, 72) := by
  have e0 : litFrom c_full (strT "商品住房上市面积") 39 = some 47 := by decide
  have e1 : numFrom c_full 47 = some (strT "8.6", 50) := by decide
  have e2 : litFrom c_full (strT "万平方米，同比") 50 = some 57 := by decide
  have e3 : trendFrom c_full 57 = some (strT "下降", 59) := by decide
  have e4 : numFrom c_full 59 = some (strT "1.5", 62) := by decide
  have e5 : pctFrom c_full 62 = some (strT "%", 63) := by decide
  have e6 : litFrom c_full (strT "，环比") 63 = some 66 := by decide
  have e7 : trendFrom c_full 66 = some (strT "增长", 68) := by decide
  have e8 : numFrom c_full 68 = some (strT "0.5", 71) := by decide
  have e9 : litFrom c_full (strT "%") 71 = some 72 := by decide
  simp only [rlMatchAt, e0, e1, e2, e3, e4, e5, e6, e7, e8, e9, Mrl]

theorem ncMatch_cfull : dealMatchAt (strT "我市新建商品房成交面积") c_full 73 = some (Mnc, 138) := by
  have e0 : litFrom c_full (strT "我市新建商品房成交面积") 73 = some 84 := by decide
  have e1 : numFrom c_full 84 = some (strT "12.5", 88) := by decide
  have e2 : litFrom c_full (strT "万平方米，同比") 88 = some 95 := by decide
  have e3 : trendFrom c_full 95 = some (strT "增长", 97) := by decide
  have e4 : numFrom c_full 97 = some (strT "3.2", 100) := by decide
  have e5 : litFrom c_full (strT "%，环比") 100 = some 104 := by decide
  have e6 : trendFrom c_full 104 = some (strT "下降", 106) := by decide
  have e7 : numFrom c_full 106 = some (strT "1.1", 109) := by decide
  have e8 : litFrom c_full (strT "%") 109 = some 110 := by decide
  have e9 : sepFrom c_full 110 = some (strT "；", 111) := by decide
  have e10 : litFrom c_full (strT "成交套数") 111 = some 115 := by decide
  have e11 : digitsFrom c_full 115 = some (strT "150", 118) := by decide
  have e12 : litFrom c_full (strT "套，同比") 118 = some 122 := by decide
  have e13 : trendFrom c_full 122 = some (strT "增长", 124) := by decide
  have e14 : numFrom c_full 124 = some (strT "2.0", 127) := by decide
  have e15 : litFrom c_full (strT "%，环比") 127 = some 131 := by decide
  have e16 : trendFrom c_full 131 = some (strT "下降", 133) := by decide
  have e17 : numFrom c_full 133 = some (strT "0.5", 136) := by decide
  have e18 : litFrom c_full (strT "%。") 136 = some 138 := by decide
  simp only [dealMatchAt, e0, e1, e2, e3, e4, e5, e6, e7, e8, e9, e10, e11, e12, e13, e14, e15, e16, e17, e18, Mnc]

theorem ocMatch_cfull : dealMatchAt (strT "我市二手房成交面积") c_full 138 = some (Moc, 199) := by
  have e0 : litFrom c_full (strT "我市二手房成交面积") 138 = some 147 := by decide
  have e1 : numFrom c_full 147 = some (strT "6.8", 150) := by decide
  have e2 : litFrom c_full (strT "万平方米，同比") 150 = some 157 := by decide
  have e3 : trendFrom c_full 157 = some (strT "增长", 159) := by decide
  have e4 : numFrom c_full 159 = some (strT "1.0", 162) := by decide
  have e5 : litFrom c_full (strT "%，环比") 162 = some 166 := by decide
  have e6 : trendFrom c_full 166 = some (strT "增长", 168) := by decide
  have e7 : numFrom c_full 168 = some (strT "2.0", 171) := by decide
  have e8 : litFrom c_full (strT "%") 171 = some 172 := by decide
  have e9 : sepFrom c_full 172 = some (strT "；", 173) := by decide
  have e10 : litFrom c_full (strT "成交套数") 173 = some 177 := by decide
  have e11 : digitsFrom c_full 177 = some (strT "80", 179) := by decide
  have e12 : litFrom c_full (strT "套，同比") 179 = some 183 := by decide
  have e13 : trendFrom c_full 183 = some (strT "下降", 185) := by decide
  have e14 : numFrom c_full 185 = some (strT "3.0", 188) := by decide
  have e15 : litFrom c_full (strT "%，环比") 188 = some 192 := by decide
  have e16 : trendFrom c_full 192 = some (strT "增长", 194) := by decide
  have e17 : numFrom c_full 194 = some (strT "4.0", 197) := by decide
  have e18 : litFrom c_full (strT "%。") 197 = some 199 := by decide
  simp only [dealMatchAt, e0, e1, e2, e3, e4, e5, e6, e7, e8, e9, e10, e11, e12, e13, e14, e15, e16, e17, e18, Moc]

/-! ### The search results on the concrete contents -/

theorem ncSearch_c1 : ncSearch c1content = some (Mnc, 65) := by
  exact searchF_of_first _ _ 0 _ (Nat.zero_le _)
    (fun j hj => absurd hj (Nat.not_lt_zero j)) ncMatch_c1

theorem clSearch_cfull : clSearch c_full = some (Mcl, 38) := by
  refine searchF_of_first _ _ 0 _ (by decide) ?_ clMatch_cfull
  exact fun j hj => absurd hj (Nat.not_lt_zero j)

theorem rlSearch_cfull : rlSearch c_full = some (Mrl, 72) := by
  refine searchF_of_first _ _ 39 _ (by decide) ?_ rlMatch_cfull
  exact (by decide : ∀ j, j < 39 → rlMatchAt c_full j = none)

theorem ncSearch_cfull : ncSearch c_full = some (Mnc, 138) := by
  refine searchF_of_first _ _ 73 _ (by decide) ?_ ncMatch_cfull
  exact (by decide : ∀ j, j < 73 → dealMatchAt (strT "我市新建商品房成交面积") c_full j = none)

theorem ocSearch_cfull : ocSearch c_full = some (Moc, 199) := by
  refine searchF_of_first _ _ 138 _ (by decide) ?_ ocMatch_cfull
  exact (by decide : ∀ j, j < 138 → dealMatchAt (strT "我市二手房成交面积") c_full j = none)

/-- The resale-residential pattern finds no match in `c_full`. -/
theorem orSearch_cfull : orSearch c_full = none := by
  refine searchF_none _ _ ?_
  exact (by decide : ∀ j, j ≤ c_full.length →
    dealMatchAt (strT "其中：二手住宅成交面积") c_full j = none)

theorem fill_cfull : fill_month_trade_info c_full = some Rfull := by
  simp only [fill_month_trade_info, clSearch_cfull, rlSearch_cfull, ncSearch_cfull,
    ocSearch_cfull, Option.map_some', mkHouseInfo, Rfull]

/-! ### Helper evaluations for the sign rule and concrete numbers -/

theorem gsv_pos (fig : Text) : get_sign_value (strT "增长") fig = parseNum fig := by
  unfold get_sign_value
  rw [if_neg (by decide)]

theorem gsv_neg (fig : Text) : get_sign_value (strT "下降") fig = -(parseNum fig) := by
  unfold get_sign_value
  rw [if_pos (by decide)]

theorem pn_125 : parseNum (strT "12.5") = 25 / 2 := by
  rw [parseNum_eval _ 12 5 1 (by decide) (by decide) (by decide)]; norm_num

theorem pn_32 : parseNum (strT "3.2") = 16 / 5 := by
  rw [parseNum_eval _ 3 2 1 (by decide) (by decide) (by decide)]; norm_num

theorem pn_11 : parseNum (strT "1.1") = 11 / 10 := by
  rw [parseNum_eval _ 1 1 1 (by decide) (by decide) (by decide)]; norm_num

theorem pn_150 : parseNum (strT "150") = 150 := by
  rw [parseNum_eval _ 150 0 0 (by decide) (by decide) (by decide)]; norm_num

theorem pn_20 : parseNum (strT "2.0") = 2 := by
  rw [parseNum_eval _ 2 0 1 (by decide) (by decide) (by decide)]; norm_num

theorem pn_05 : parseNum (strT "0.5") = 1 / 2 := by
  rw [parseNum_eval _ 0 5 1 (by decide) (by decide) (by decide)]; norm_num

theorem pn_123 : parseNum (strT "12.3") = 123 / 10 := by
  rw [parseNum_eval _ 12 3 1 (by decide) (by decide) (by decide)]; norm_num

/-! ### Structural helpers on `mkHouseInfo` -/

theorem mkHouseInfo_same (o : Option DealMatch) (nh : HouseInfo)
    (h : mkHouseInfo o o = some nh) :
    nh.residential_area = nh.commercial_area ∧ nh.residential_unit = nh.commercial_unit := by
  cases o with
  | none => simp [mkHouseInfo] at h
  | some m =>
    simp only [mkHouseInfo, Option.some.injEq] at h
    rw [← h]
    exact ⟨rfl, rfl⟩

theorem mkHouseInfo_values (a b : Option DealMatch) (nh : HouseInfo)
    (h : mkHouseInfo a b = some nh) :
    0 ≤ nh.commercial_area.value ∧ 0 ≤ nh.commercial_unit.value ∧
    0 ≤ nh.residential_area.value ∧ 0 ≤ nh.residential_unit.value := by
  cases a with
  | none => simp [mkHouseInfo] at h
  | some cm =>
    cases b with
    | none => simp [mkHouseInfo] at h
    | some rm =>
      simp only [mkHouseInfo, Option.some.injEq] at h
      rw [← h]
      exact ⟨parseNum_nonneg _, parseNum_nonneg _, parseNum_nonneg _, parseNum_nonneg _⟩

/-! ### Soundness of the two listed-area matchers (capture positions in the sentence) -/

theorem clMatchAt_sound (t : Text) (i : Nat) (m : CListMatch) (j : Nat)
    (h : clMatchAt t i = some (m, j)) :
    t.drop i = m.lead ++ strT "月，我市商品房上市面积" ++ m.area ++ strT "万平方米，同比" ++
      m.area_mom_trend ++ m.area_mom ++ strT "%，环比" ++ m.area_yoy_trend ++ m.area_yoy ++
      strT "%" ++ t.drop j := by
  unfold clMatchAt at h
  split at h
  · exact absurd h (by simp)
  next ld i1 e0 =>
  split at h
  · exact absurd h (by simp)
  next i2 e1 =>
  split at h
  · exact absurd h (by simp)
  next a i3 e2 =>
  split at h
  · exact absurd h (by simp)
  next i4 e3 =>
  split at h
  · exact absurd h (by simp)
  next t1 i5 e4 =>
  split at h
  · exact absurd h (by simp)
  next f1 i6 e5 =>
  split at h
  · exact absurd h (by simp)
  next i7 e6 =>
  split at h
  · exact absurd h (by simp)
  next t2 i8 e7 =>
  split at h
  · exact absurd h (by simp)
  next f2 i9 e8 =>
  split at h
  · exact absurd h (by simp)
  next i10 e9 =>
  simp only [Option.some.injEq, Prod.mk.injEq] at h
  obtain ⟨hm, hj⟩ := h
  subst hm hj
  rw [digitsFrom_sound t i ld i1 e0, litFrom_sound t _ i1 i2 e1, numFrom_sound t i2 a i3 e2,
    litFrom_sound t _ i3 i4 e3, trendFrom_sound t i4 t1 i5 e4, numFrom_sound t i5 f1 i6 e5,
    litFrom_sound t _ i6 i7 e6, trendFrom_sound t i7 t2 i8 e7, numFrom_sound t i8 f2 i9 e8,
    litFrom_sound t _ i9 i10 e9]
  simp [List.append_assoc]

theorem rlMatchAt_sound (t : Text) (i : Nat) (m : RListMatch) (j : Nat)
    (h : rlMatchAt t i = some (m, j)) :
    t.drop i = strT "商品住房上市面积" ++ m.area ++ strT "万平方米，同比" ++
      m.area_mom_trend ++ m.area_mom ++ m.pct1 ++ strT "，环比" ++ m.area_yoy_trend ++
      m.area_yoy ++ strT "%" ++ t.drop j := by
  unfold rlMatchAt at h
  split at h
  · exact absurd h (by simp)
  next i1 e0 =>
  split at h
  · exact absurd h (by simp)
  next a i2 e1 =>
  split at h
  · exact absurd h (by simp)
  next i3 e2 =>
  split at h
  · exact absurd h (by simp)
  next t1 i4 e3 =>
  split at h
  · exact absurd h (by simp)
  next f1 i5 e4 =>
  split at h
  · exact absurd h (by simp)
  next pc i6 e5 =>
  split at h
  · exact absurd h (by simp)
  next i7 e6 =>
  split at h
  · exact absurd h (by simp)
  next t2 i8 e7 =>
  split at h
  · exact absurd h (by simp)
  next f2 i9 e8 =>
  split at h
  · exact absurd h (by simp)
  next i10 e9 =>
  simp only [Option.some.injEq, Prod.mk.injEq] at h
  obtain ⟨hm, hj⟩ := h
  subst hm hj
  rw [litFrom_sound t _ i i1 e0, numFrom_sound t i1 a i2 e1, litFrom_sound t _ i2 i3 e2,
    trendFrom_sound t i3 t1 i4 e3, numFrom_sound t i4 f1 i5 e4, pctFrom_sound t i5 pc i6 e5,
    litFrom_sound t _ i6 i7 e6, trendFrom_sound t i7 t2 i8 e7, numFrom_sound t i8 f2 i9 e8,
    litFrom_sound t _ i9 i10 e9]
  simp [List.append_assoc]

/-! ### Soundness of the title pattern match -/

theorem monthP_sound (s mo r2 : Text) (h : monthP s = some (mo, r2)) :
    1 ≤ mo.length ∧ mo.length ≤ 2 ∧ (∀ c ∈ mo, c.isDigit = true) ∧ s = mo ++ '月' :: r2 := by
  unfold monthP at h
  split at h
  next c1 c2 rest =>
    split at h
    next hd =>
      split at h
      next r2' =>
        simp only [Option.some.injEq, Prod.mk.injEq] at h
        obtain ⟨hmo, hr⟩ := h
        subst hmo hr
        rw [Bool.and_eq_true] at hd
        obtain ⟨hd1, hd2⟩ := hd
        refine ⟨by simp, by simp, ?_, rfl⟩
        intro c hc
        simp only [List.mem_cons, List.not_mem_nil, or_false] at hc
        rcases hc with rfl | rfl
        · exact hd1
        · exact hd2
      next => exact absurd h (by simp)
    next =>
      split at h
      next h2 =>
        simp only [Option.some.injEq, Prod.mk.injEq] at h
        obtain ⟨hmo, hr⟩ := h
        subst hmo hr
        rw [Bool.and_eq_true] at h2
        obtain ⟨hd1, hd2⟩ := h2
        refine ⟨by simp, by simp, ?_, ?_⟩
        · intro c hc
          simp only [List.mem_cons, List.not_mem_nil, or_false] at hc
          rcases hc with rfl
          exact hd1
        · have : c2 = '月' := by simpa using hd2
          rw [this]
          rfl
      next => exact absurd h (by simp)
  next => exact absurd h (by simp)

theorem title_match_sound (t y mo : Text) (h : title_match t = some (y, mo)) :
    y.length = 4 ∧ (∀ c ∈ y, c.isDigit = true) ∧ 1 ≤ mo.length ∧ mo.length ≤ 2 ∧
    (∀ c ∈ mo, c.isDigit = true) ∧ ∃ rest, t = y ++ '年' :: (mo ++ '月' :: rest) := by
  unfold title_match at h
  split at h
  next y1 y2 y3 y4 r =>
    split at h
    next hd =>
      split at h
      · exact absurd h (by simp)
      next mo' r2 hmp =>
        split at h
        · exact absurd h (by simp)
        next r4 hlit =>
          split at h
          · exact absurd h (by simp)
          next =>
            simp only [Option.some.injEq, Prod.mk.injEq] at h
            obtain ⟨hy, hmo⟩ := h
            subst hy hmo
            have hm := monthP_sound r _ _ hmp
            rw [Bool.and_eq_true] at hd
            obtain ⟨hdd, hd4⟩ := hd
            rw [Bool.and_eq_true] at hdd
            obtain ⟨hdd, hd3⟩ := hdd
            rw [Bool.and_eq_true] at hdd
            obtain ⟨hd1, hd2⟩ := hdd
            refine ⟨rfl, ?_, hm.1, hm.2.1, hm.2.2.1, ⟨r2, ?_⟩⟩
            · intro c hc
              simp only [List.mem_cons, List.not_mem_nil, or_false] at hc
              rcases hc with rfl | rfl | rfl | rfl
              · exact hd1
              · exact hd2
              · exact hd3
              · exact hd4
            · rw [show y1 :: y2 :: y3 :: y4 :: '年' :: r =
                  [y1, y2, y3, y4] ++ '年' :: r from rfl, hm.2.2.2]
    next => exact absurd h (by simp)
  next => exact absurd h (by simp)

theorem title_T1 : title_match T1title = some (strT "2023", strT "3") := by decide

theorem href_A1 : dropDotSlash (stripT (strT "./b1.html")) = strT "b1.html" := by decide

theorem process_single :
    process_index_page [A1] (fun _ => c_full) = some [Tinfo1] := by
  simp only [process_index_page, A1, title_T1, href_A1, fill_cfull, Tinfo1]

theorem run_dup :
    fetch_business_data [[A1], [A1]] (fun _ => c_full) = some [Tinfo1, Tinfo1] := by
  simp only [fetch_business_data, process_single, List.singleton_append]

/-! ### The decrease vocabulary, and key preservation of the orchestrator -/

theorem decrease_vocab_iff (c : Char) :
    ((strT "下降低负").contains c = true) ↔ (c = '降' ∨ c = '负' ∨ c = '低' ∨ c = '下') := by
  show (['下', '降', '低', '负'].contains c = true) ↔ _
  simp [List.contains]
  tauto

theorem process_index_page_keys (oracle : Text → Text) :
    ∀ (anchors : List AnchorTag) (out : List TradeInfo),
      process_index_page anchors oracle = some out →
      out.map (fun r => (r.year, r.month)) = anchors.filterMap (anchorKey oracle) := by
  intro anchors
  induction anchors with
  | nil =>
    intro out h
    simp only [process_index_page, Option.some.injEq] at h
    subst h
    rfl
  | cons a rest ih =>
    intro out h
    unfold process_index_page at h
    split at h
    · exact absurd h (by simp)
    next y mo hty =>
      split at h
      · exact absurd h (by simp)
      next out' hrec =>
        rw [List.filterMap_cons]
        split at h
        next d hfill =>
          simp only [Option.some.injEq] at h
          subst h
          have hk : anchorKey oracle a = some (y, mo) := by
            rw [anchorKey, hty, Option.some_bind, if_pos (by rw [hfill]; rfl)]
          rw [hk, List.map_cons, ih out' hrec]
        next hfill =>
          simp only [Option.some.injEq] at h
          subst h
          have hk : anchorKey oracle a = none := by
            rw [anchorKey, hty, Option.some_bind, if_neg (by rw [hfill]; simp)]
          rw [hk, ih out' hrec]

/-! ### The ten claims -/

/-- C1: the specification's end-to-end example expects, for the content
string `c1content`, `new_house.commercial_area = (12.5, +3.2, -1.1)` and
`new_house.commercial_unit = (150, +2.0, -0.5)`.  The area triple comes out
as expected, but the unit triple does not: `build_deal_pattern` captures
the 同比 figure in group `unit_mom` and the 环比 figure in group
`unit_yoy` (swapped relative to the adjacent trend groups `unit_yoy_trend`
and `unit_mom_trend`), so the code yields `commercial_unit =
(150, +0.5, -2.0)`.  This theorem evaluates the code at the failing
input. -/
theorem C1_deal_extraction_eval :
    (ncSearch c1content).map (fun p => (dealAreaBase p.1, dealUnitBase p.1)) =
      some (⟨25 / 2, 16 / 5, -(11 / 10)⟩, ⟨150, 1 / 2, -2⟩) := by
  rw [ncSearch_c1]
  have ha : dealAreaBase Mnc = ⟨25 / 2, 16 / 5, -(11 / 10)⟩ := by
    simp only [dealAreaBase, Mnc]
    rw [gsv_pos, gsv_neg, pn_125, pn_32, pn_11]
  have hu : dealUnitBase Mnc = ⟨150, 1 / 2, -2⟩ := by
    simp only [dealUnitBase, Mnc]
    rw [gsv_pos, gsv_neg, pn_150, pn_05, pn_20]
  simp only [Option.map_some', ha, hu]

/-- C2 counterexample: the claim says a content string missing the
resale-residential sentence drops the whole month; `c_full` contains no
resale-residential sentence (its pattern finds no match), yet the record
is built successfully, because line 138 of the source searches the
resale-*commercial* pattern in its place. -/
theorem C2_missing_resale_residential_counterexample :
    orSearch c_full = none ∧ (fill_month_trade_info c_full).isSome = true := by
  refine ⟨orSearch_cfull, ?_⟩
  rw [fill_cfull]
  rfl

/-- C2 amended: a month's record is built exactly when the four patterns
actually applied — commercial listed-area, residential listed-area,
new-commercial and resale-commercial — all match; the resale-residential
(and new-residential) sentences are irrelevant because their patterns are
never applied. -/
theorem C2_fill_succeeds_iff (content : Text) :
    (fill_month_trade_info content).isSome = true ↔
      ((clSearch content).isSome = true ∧ (rlSearch content).isSome = true ∧
       (ncSearch content).isSome = true ∧ (ocSearch content).isSome = true) := by
  unfold fill_month_trade_info
  cases hcl : clSearch content <;> cases hrl : rlSearch content <;>
    cases hnc : ncSearch content <;> cases hoc : ocSearch content <;>
      simp [mkHouseInfo]

/-- Witness for C2's amended claim, at the content `c_full`. -/
theorem C2_fill_succeeds_iff_witness :
    (fill_month_trade_info c_full).isSome = true :=
  (C2_fill_succeeds_iff c_full).mpr
    ⟨by rw [clSearch_cfull]; rfl, by rw [rlSearch_cfull]; rfl,
     by rw [ncSearch_cfull]; rfl, by rw [ocSearch_cfull]; rfl⟩

/-- C3: the extracted signed field is the negated magnitude exactly when the
trend token contains a character of the decrease vocabulary, and positive
otherwise (`get_sign_value` coincides with the specification's sign rule
for every trend token and captured figure); the `value` field of every
constructed triple is the parsed magnitude itself, never sign-adjusted.
The concrete instances of the specification are included: token 下降 with
percent 12.3 gives -12.3, token 增长 gives +12.3. -/
theorem C3_sign_rule :
    (∀ trend fig : Text, get_sign_value trend fig = spec_signed_field trend (parseNum fig)) ∧
    get_sign_value (strT "下降") (strT "12.3") = -(123 / 10) ∧
    get_sign_value (strT "增长") (strT "12.3") = 123 / 10 ∧
    (∀ m : DealMatch, (dealAreaBase m).value = parseNum m.area ∧
      (dealUnitBase m).value = parseNum m.unit) ∧
    (∀ m : CListMatch, (clBase m).value = parseNum m.area) ∧
    (∀ m : RListMatch, (rlBase m).value = parseNum m.area) := by
  refine ⟨?_, ?_, ?_, fun m => ⟨rfl, rfl⟩, fun m => rfl, fun m => rfl⟩
  · intro trend fig
    unfold get_sign_value spec_signed_field
    refine if_congr ?_ rfl rfl
    simp only [List.any_eq_true, decide_eq_true_eq, decrease_vocab_iff]
  · rw [gsv_neg, pn_123]
  · rw [gsv_pos, pn_123]

/-- C4: because lines 135 and 138 of the source search the commercial deal
patterns again for the residential fields, every successfully parsed
record has its residential transaction triples equal to the commercial
ones, for both the new-house and the resale segment. -/
theorem C4_residential_equals_commercial (content : Text) (r : TradeData)
    (h : fill_month_trade_info content = some r) :
    r.new_house.residential_area = r.new_house.commercial_area ∧
    r.new_house.residential_unit = r.new_house.commercial_unit ∧
    r.old_house.residential_area = r.old_house.commercial_area ∧
    r.old_house.residential_unit = r.old_house.commercial_unit := by
  unfold fill_month_trade_info at h
  split at h
  · exact absurd h (by simp)
  next cl hcl =>
  split at h
  · exact absurd h (by simp)
  next rl hrl =>
  split at h
  · exact absurd h (by simp)
  next nh hnh =>
  split at h
  · exact absurd h (by simp)
  next oh hoh =>
  simp only [Option.some.injEq] at h
  subst h
  have h1 := mkHouseInfo_same _ _ hnh
  have h2 := mkHouseInfo_same _ _ hoh
  exact ⟨h1.1, h1.2, h2.1, h2.2⟩

/-- Witness for C4 at the content `c_full`. -/
theorem C4_residential_equals_commercial_witness :
    Rfull.new_house.residential_area = Rfull.new_house.commercial_area ∧
    Rfull.new_house.residential_unit = Rfull.new_house.commercial_unit ∧
    Rfull.old_house.residential_area = Rfull.old_house.commercial_area ∧
    Rfull.old_house.residential_unit = Rfull.old_house.commercial_unit :=
  C4_residential_equals_commercial c_full Rfull fill_cfull

/-- C5 counterexample: for the records (2023, 3), (2022, 11), (2023, 1)
the chart renderer does not produce the claimed labels "202211",
"202301", "202303" — the f-string of year then month does not zero-pad
the month. -/
theorem C5_chart_counterexample :
    chart_x [(2023, 3), (2022, 11), (2023, 1)] ≠ ["202211", "202301", "202303"] := by
  decide

/-- C5 amended: the renderer sorts ascending by `(year, month)` and builds
year-then-month labels in that order, but without zero-padding the
month, giving "202211", "20231", "20233" for those records. -/
theorem C5_chart_labels :
    chart_x [(2023, 3), (2022, 11), (2023, 1)] = ["202211", "20231", "20233"] := by
  decide

/-- C6: in every successfully parsed record all the MetricTriples' `value`
fields are non-negative — each is the unsigned magnitude captured by the
numeric field. -/
theorem C6_values_nonneg (content : Text) (r : TradeData)
    (h : fill_month_trade_info content = some r) :
    0 ≤ r.commercial_list_info.value ∧ 0 ≤ r.residential_list_info.value ∧
    0 ≤ r.new_house.commercial_area.value ∧ 0 ≤ r.new_house.commercial_unit.value ∧
    0 ≤ r.new_house.residential_area.value ∧ 0 ≤ r.new_house.residential_unit.value ∧
    0 ≤ r.old_house.commercial_area.value ∧ 0 ≤ r.old_house.commercial_unit.value ∧
    0 ≤ r.old_house.residential_area.value ∧ 0 ≤ r.old_house.residential_unit.value := by
  unfold fill_month_trade_info at h
  split at h
  · exact absurd h (by simp)
  next cl hcl =>
  split at h
  · exact absurd h (by simp)
  next rl hrl =>
  split at h
  · exact absurd h (by simp)
  next nh hnh =>
  split at h
  · exact absurd h (by simp)
  next oh hoh =>
  simp only [Option.some.injEq] at h
  subst h
  have h1 := mkHouseInfo_values _ _ _ hnh
  have h2 := mkHouseInfo_values _ _ _ hoh
  exact ⟨parseNum_nonneg _, parseNum_nonneg _, h1.1, h1.2.1, h1.2.2.1, h1.2.2.2,
    h2.1, h2.2.1, h2.2.2.1, h2.2.2.2⟩

/-- Witness for C6 at the content `c_full`. -/
theorem C6_values_nonneg_witness : 0 ≤ Rfull.commercial_list_info.value :=
  (C6_values_nonneg c_full Rfull fill_cfull).1

/-- C7 counterexample: on a cache miss the function writes the UTF-8 bytes
of the response to the file but returns the response *text* (`str`), not
those bytes — the value returned is not the value written. -/
theorem C7_page_cache_counterexample :
    fetch_html_content none (fun _ => strT "hi") (strT "x") =
      (HtmlContent.text (strT "hi"), [baseUrl ++ strT "x"], some [104, 105]) ∧
    HtmlContent.text (strT "hi") ≠ HtmlContent.bytes [104, 105] := by
  exact ⟨by decide, by decide⟩

/-- C7 amended: a network request is issued iff the cache file is missing
or empty; when the file exists non-empty its stored bytes are returned
unmodified with no request and no write; on a miss exactly one GET to the
fixed base URL joined with the remote path is issued, the response's
UTF-8 encoding is written to the file, and the response *text* (not the
written bytes) is returned. -/
theorem C7_page_cache_behavior (dump : Option (List Nat)) (net : Text → Text) (suffix : Text) :
    ((fetch_html_content dump net suffix).2.1 = [] ↔ cacheHit dump = true) ∧
    (∀ bs, dump = some bs → bs ≠ [] →
      fetch_html_content dump net suffix = (.bytes bs, [], none)) ∧
    (cacheHit dump = false →
      fetch_html_content dump net suffix =
        (.text (net (baseUrl ++ suffix)), [baseUrl ++ suffix],
          some (utf8Encode (net (baseUrl ++ suffix))))) := by
  refine ⟨?_, ?_, ?_⟩
  · by_cases hc : cacheHit dump = true
    · simp [fetch_html_content, hc]
    · simp [fetch_html_content, hc]
  · intro bs hbs hne
    subst hbs
    have hc : cacheHit (some bs) = true := by
      cases bs with
      | nil => exact absurd rfl hne
      | cons b t => rfl
    simp [fetch_html_content, hc]
  · intro hc
    simp [fetch_html_content, hc]

/-- Witness for C7's amended claim: a non-empty cached file is returned
as stored, with no request and no write. -/
theorem C7_page_cache_behavior_witness :
    fetch_html_content (some [104]) (fun _ => []) (strT "x") =
      (HtmlContent.bytes [104], [], none) :=
  (C7_page_cache_behavior (some [104]) (fun _ => []) (strT "x")).2.1 [104] rfl (by decide)

/-- C8 counterexample: the same month discovered on two index pages is
appended twice — the final series contains two records with the key
(year "2023", month "3"). -/
theorem C8_duplicate_key_counterexample :
    (fetch_business_data [[A1], [A1]] (fun _ => c_full)).map
        (List.map fun r => (r.year, r.month)) =
      some [(strT "2023", strT "3"), (strT "2023", strT "3")] := by
  rw [run_dup]
  rfl

/-- C8 amended: the orchestrator performs no deduplication — the key
sequence of the final series is exactly the per-anchor key sequence of
all index pages in discovery order, with multiplicity: a month appearing
on two pages (and parsing both times) appears twice. -/
theorem C8_keys_no_dedup (oracle : Text → Text) :
    ∀ (pages : List (List AnchorTag)) (out : List TradeInfo),
      fetch_business_data pages oracle = some out →
      out.map (fun r => (r.year, r.month)) = pages.flatten.filterMap (anchorKey oracle) := by
  intro pages
  induction pages with
  | nil =>
    intro out h
    simp only [fetch_business_data, Option.some.injEq] at h
    subst h
    rfl
  | cons p ps ih =>
    intro out h
    unfold fetch_business_data at h
    split at h
    · exact absurd h (by simp)
    next out1 h1 =>
      split at h
      · exact absurd h (by simp)
      next out2 h2 =>
        simp only [Option.some.injEq] at h
        subst h
        rw [List.map_append, process_index_page_keys oracle p out1 h1, ih out2 h2,
          List.flatten_cons, List.filterMap_append]

/-- Witness for C8's amended claim, at the duplicated-page run. -/
theorem C8_keys_no_dedup_witness :
    [Tinfo1, Tinfo1].map (fun r => (r.year, r.month)) =
      ([[A1], [A1]] : List (List AnchorTag)).flatten.filterMap
        (anchorKey (fun _ => c_full)) :=
  C8_keys_no_dedup (fun _ => c_full) [[A1], [A1]] [Tinfo1, Tinfo1] run_dup

/-- C9 counterexample: the record built for an anchor does not keep the
href verbatim — `TradeInfo.__init__` strips it and removes a leading
`./`, so anchor href "./b1.html" is stored as "b1.html". -/
theorem C9_href_counterexample :
    process_index_page [A1] (fun _ => c_full) = some [Tinfo1] ∧
    Tinfo1.href ≠ A1.href := by
  exact ⟨process_single, by decide⟩

/-- C9 amended: for an anchor whose title matches the bulletin title
pattern, the record keeps year and month as the matched digit substrings
of the title (four digits, then one or two digits — strings, not
converted to `int`), and stores the href with surrounding whitespace
stripped and one leading "./" removed (not verbatim). -/
theorem C9_index_fields (a : AnchorTag) (oracle : Text → Text) (out : List TradeInfo)
    (h : process_index_page [a] oracle = some out) :
    ∀ r ∈ out, r.href = dropDotSlash (stripT a.href) ∧
      r.year.length = 4 ∧ (∀ c ∈ r.year, c.isDigit = true) ∧
      1 ≤ r.month.length ∧ r.month.length ≤ 2 ∧ (∀ c ∈ r.month, c.isDigit = true) ∧
      ∃ rest, a.title = r.year ++ '年' :: (r.month ++ '月' :: rest) := by
  intro r hr
  simp only [process_index_page] at h
  split at h
  · exact absurd h (by simp)
  next y mo hty =>
    split at h
    next d hfill =>
      simp only [Option.some.injEq] at h
      subst h
      simp only [List.mem_singleton] at hr
      subst hr
      have ht := title_match_sound a.title y mo hty
      exact ⟨rfl, ht.1, ht.2.1, ht.2.2.1, ht.2.2.2.1, ht.2.2.2.2.1, ht.2.2.2.2.2⟩
    next hfill =>
      simp only [Option.some.injEq] at h
      subst h
      exact absurd hr (by simp)

/-- Witness for C9's amended claim, at the anchor `A1`. -/
theorem C9_index_fields_witness :
    Tinfo1.href = dropDotSlash (stripT A1.href) ∧
    Tinfo1.year.length = 4 ∧ (∀ c ∈ Tinfo1.year, c.isDigit = true) ∧
    1 ≤ Tinfo1.month.length ∧ Tinfo1.month.length ≤ 2 ∧
    (∀ c ∈ Tinfo1.month, c.isDigit = true) ∧
    ∃ rest, A1.title = Tinfo1.year ++ '年' :: (Tinfo1.month ++ '月' :: rest) :=
  C9_index_fields A1 (fun _ => c_full) [Tinfo1] process_single Tinfo1
    (List.mem_singleton.mpr rfl)

/-- C10: in both listed-area patterns the 同比 (year-over-year) clause of
the sentence is captured by the `area_mom`-named groups and the 环比
(month-over-month) clause by the `area_yoy`-named groups, so the
resulting triple's `yoy` field carries the figure and trend sign of the
环比 clause and its `mom` field those of the 同比 clause — labels
interchanged relative to the sentence, each figure signed by its own
clause's trend token.  The decomposition exhibits where each captured
group sits in the content string. -/
theorem C10_list_pattern_clause_swap :
    (∀ (content : Text) (m : CListMatch) (j : Nat),
      clSearch content = some (m, j) →
        (∃ pre rest, content =
            pre ++ m.lead ++ strT "月，我市商品房上市面积" ++ m.area ++ strT "万平方米，同比" ++
              m.area_mom_trend ++ m.area_mom ++ strT "%，环比" ++ m.area_yoy_trend ++
              m.area_yoy ++ strT "%" ++ rest) ∧
        clBase m = ⟨parseNum m.area, get_sign_value m.area_yoy_trend m.area_yoy,
          get_sign_value m.area_mom_trend m.area_mom⟩) ∧
    (∀ (content : Text) (m : RListMatch) (j : Nat),
      rlSearch content = some (m, j) →
        (∃ pre rest, content =
            pre ++ strT "商品住房上市面积" ++ m.area ++ strT "万平方米，同比" ++
              m.area_mom_trend ++ m.area_mom ++ m.pct1 ++ strT "，环比" ++
              m.area_yoy_trend ++ m.area_yoy ++ strT "%" ++ rest) ∧
        rlBase m = ⟨parseNum m.area, get_sign_value m.area_yoy_trend m.area_yoy,
          get_sign_value m.area_mom_trend m.area_mom⟩) := by
  constructor
  · intro content m j hs
    refine ⟨?_, rfl⟩
    obtain ⟨k, hk⟩ := searchF_some_exists _ _ _ hs
    refine ⟨content.take k, content.drop j, ?_⟩
    conv_lhs => rw [← List.take_append_drop k content]
    rw [clMatchAt_sound content k m j hk]
    simp [List.append_assoc]
  · intro content m j hs
    refine ⟨?_, rfl⟩
    obtain ⟨k, hk⟩ := searchF_some_exists _ _ _ hs
    refine ⟨content.take k, content.drop j, ?_⟩
    conv_lhs => rw [← List.take_append_drop k content]
    rw [rlMatchAt_sound content k m j hk]
    simp [List.append_assoc]

/-- Witness for C10, at the commercial listed-area match of `c_full`. -/
theorem C10_list_pattern_clause_swap_witness :
    (∃ pre rest, c_full =
        pre ++ Mcl.lead ++ strT "月，我市商品房上市面积" ++ Mcl.area ++ strT "万平方米，同比" ++
          Mcl.area_mom_trend ++ Mcl.area_mom ++ strT "%，环比" ++ Mcl.area_yoy_trend ++
          Mcl.area_yoy ++ strT "%" ++ rest) ∧
    clBase Mcl = ⟨parseNum Mcl.area, get_sign_value Mcl.area_yoy_trend Mcl.area_yoy,
      get_sign_value Mcl.area_mom_trend Mcl.area_mom⟩ :=
  C10_list_pattern_clause_swap.1 c_full Mcl 38 clSearch_cfull
